import Mathlib

/-!
Shallow embedding of the property-manager-api repository.

The embedding translates the TypeScript sources into Lean definitions:
`ValidationService` (validatePropertyInput, sanitizeInput), the
`WeatherstackService` mode selection and synthetic generator, and the
`PropertyService` workflow (createProperty, getProperties, deleteProperty,
getPropertiesCount).  JavaScript strings are Lean `String`s; JavaScript
number arithmetic that the claims depend on is modelled exactly over `ℚ`
and `ℤ` (with explicit 32-bit wrapping where the code uses bitwise
operators).  Effects (the weather HTTP call, the Prisma storage calls) are
modelled by passing their outcomes as explicit parameters and recording in
the result which collaborators were invoked.
-/

namespace PropertyManager

/-! ### JavaScript string primitives -/

/-- Code points of the whitespace recognised by JavaScript
`String.prototype.trim` (WhiteSpace and LineTerminator). -/
def wsCode (n : Nat) : Bool :=
  n == 32 || n == 9 || n == 10 || n == 13 || n == 11 || n == 12 ||
  n == 0xA0 || n == 0x1680 || (0x2000 ≤ n && n ≤ 0x200A) ||
  n == 0x2028 || n == 0x2029 || n == 0x202F || n == 0x205F ||
  n == 0x3000 || n == 0xFEFF

/-- Whitespace as recognised by JavaScript `String.prototype.trim`. -/
def jsWhitespace (c : Char) : Bool :=
  wsCode c.toNat

/-- Trim on the character list: drop leading and trailing JS whitespace. -/
def listTrim (l : List Char) : List Char :=
  ((l.dropWhile jsWhitespace).reverse.dropWhile jsWhitespace).reverse

/-- JavaScript `s.trim()`. -/
def jsTrim (s : String) : String :=
  ⟨listTrim s.data⟩

/-- ASCII case mapping of JavaScript `String.prototype.toUpperCase` on one
character (the repository only ever feeds ASCII state codes through it). -/
def upperChar (c : Char) : Char :=
  if 97 ≤ c.toNat ∧ c.toNat ≤ 122 then Char.ofNat (c.toNat - 32) else c

/-- ASCII case mapping of JavaScript `String.prototype.toLowerCase` on one
character. -/
def lowerChar (c : Char) : Char :=
  if 65 ≤ c.toNat ∧ c.toNat ≤ 90 then Char.ofNat (c.toNat + 32) else c

/-- JavaScript `s.toUpperCase()`. -/
def jsToUpperCase (s : String) : String :=
  ⟨s.data.map upperChar⟩

/-- JavaScript `s.toLowerCase()`. -/
def jsToLowerCase (s : String) : String :=
  ⟨s.data.map lowerChar⟩

/-- JavaScript `s || ''` applied to a string value: the empty string is
falsy, every other string is truthy. -/
def jsOrEmpty (s : String) : String :=
  if s = "" then "" else s

/-! ### Validator (src/services/ValidationService.ts) -/

/-- Modelled from the spec: the module `types.ts`, which exports the
`US_STATES` constant consumed by `ValidationService.validatePropertyInput`,
is not among the provided sources.  The spec describes it as "a fixed
enumerated set of valid US state/territory abbreviations", validated after
normalization to uppercase, so it is modelled as the uppercase two-letter
postal abbreviations of the fifty states plus the District of Columbia and
the inhabited territories. -/
def US_STATES : List String :=
  ["AL", "AK", "AZ", "AR", "CA", "CO", "CT", "DE", "FL", "GA",
   "HI", "ID", "IL", "IN", "IA", "KS", "KY", "LA", "ME", "MD",
   "MA", "MI", "MN", "MS", "MO", "MT", "NE", "NV", "NH", "NJ",
   "NM", "NY", "NC", "ND", "OH", "OK", "OR", "PA", "RI", "SC",
   "SD", "TN", "TX", "UT", "VT", "VA", "WA", "WV", "WI", "WY",
   "DC", "AS", "GU", "MP", "PR", "VI"]

/-- Input type of the create-property workflow (types.ts
`CreatePropertyInput`): the four submission fields, all strings. -/
structure CreatePropertyInput where
  city : String
  street : String
  state : String
  zipCode : String
deriving DecidableEq, Repr

/-- Return type of `ValidationService.validatePropertyInput`. -/
structure ValidationResult where
  isValid : Bool
  errors : List String
deriving DecidableEq, Repr

/-- The test of the regular expression `/^\d{5}$/`: exactly five ASCII
digits. -/
def zipRegexTest (s : String) : Bool :=
  s.data.length == 5 && s.data.all Char.isDigit

/-- ValidationService.validatePropertyInput: checks the four rules in
order, pushing one message per violated rule; `isValid` is
`errors.length === 0`. -/
def validatePropertyInput (input : CreatePropertyInput) : ValidationResult :=
  let errors : List String :=
    (if input.city = "" ∨ (jsTrim input.city).length = 0 then
      ["City is required"] else []) ++
    (if input.street = "" ∨ (jsTrim input.street).length = 0 then
      ["Street is required"] else []) ++
    (if input.state = "" ∨ input.state ∉ US_STATES then
      ["Valid US state abbreviation is required (e.g., CA, NY, TX)"] else []) ++
    (if input.zipCode = "" ∨ ¬ zipRegexTest input.zipCode then
      ["Valid 5-digit zip code is required"] else [])
  { isValid := errors.length == 0, errors := errors }

/-- ValidationService.sanitizeInput: trim city, street and zipCode,
uppercase-then-trim state, with the JS `|| ''` fallback on each field. -/
def sanitizeInput (input : CreatePropertyInput) : CreatePropertyInput :=
  { city := jsOrEmpty (jsTrim input.city)
    street := jsOrEmpty (jsTrim input.street)
    state := jsOrEmpty (jsTrim (jsToUpperCase input.state))
    zipCode := jsOrEmpty (jsTrim input.zipCode) }

/-! ### Weather adapter (src/services/WeatherstackService.ts) -/

/-- Weatherstack response request-echo block (types.ts `WeatherData`). -/
structure WeatherRequest where
  type : String
  query : String
  language : String
  unit : String
deriving DecidableEq, Repr

/-- Weatherstack response location block; latitude and longitude travel as
decimal strings. -/
structure WeatherLocation where
  name : String
  country : String
  region : String
  lat : String
  lon : String
  timezone_id : String
  localtime : String
  localtime_epoch : Nat
  utc_offset : String
deriving DecidableEq, Repr

/-- Weatherstack response current-conditions block. -/
structure WeatherCurrent where
  observation_time : String
  temperature : Int
  weather_code : Nat
  weather_icons : List String
  weather_descriptions : List String
  wind_speed : Int
  wind_degree : Int
  wind_dir : String
  pressure : Nat
  precip : Nat
  humidity : Int
  cloudcover : Int
  feelslike : Int
  uv_index : Int
  visibility : Nat
  is_day : String
deriving DecidableEq, Repr

/-- Full weather snapshot, mirroring the wire format. -/
structure WeatherData where
  request : WeatherRequest
  location : WeatherLocation
  current : WeatherCurrent
deriving DecidableEq, Repr

/-- ToInt32 coercion of JavaScript bitwise operators: wrap into
[-2^31, 2^31). -/
def toInt32 (n : Int) : Int :=
  (n + 2 ^ 31) % 2 ^ 32 - 2 ^ 31

/-- JavaScript `charCodeAt(0)` of a one-character string, for the scalar
values the mock generator hashes (astral-plane surrogate splitting is not
modelled; it affects no claim because the hash stays a 32-bit value). -/
def charCode (c : Char) : Nat :=
  c.toNat

/-- One step of the reduce in `generateCoordinates`:
`a = (a << 5) - a + b.charCodeAt(0); return a & a`.  The shift result is
coerced to Int32, the addition is exact double arithmetic, and `a & a`
coerces the result to Int32. -/
def hashStep (a : Int) (c : Char) : Int :=
  toInt32 (toInt32 (a * 32) - a + (charCode c : Int))

/-- The string hash of the lowercased city name in `generateCoordinates`. -/
def cityHash (city : String) : Int :=
  (jsToLowerCase city).data.foldl hashStep 0

/-- Return type of `generateCoordinates`. -/
structure Coordinates where
  lat : ℚ
  long : ℚ
deriving DecidableEq, Repr

/-- JavaScript `Math.round`: round half toward positive infinity. -/
def jsRound (q : ℚ) : Int :=
  ⌊q + 1 / 2⌋

/-- WeatherstackService.generateCoordinates: derive coordinates from the
city-name hash; `Math.abs(hash % n)` is truncated remainder followed by
absolute value.  Double arithmetic is modelled exactly over `ℚ` (the
round-trip through binary64 does not change the three-decimal values the
code produces). -/
def generateCoordinates (city : String) (_state : String) : Coordinates :=
  let hash := cityHash city
  let lat : ℚ := 24 + ((hash.tmod 25000).natAbs : ℚ) / 1000
  let long : ℚ := -125 + ((hash.tmod 59000).natAbs : ℚ) / 1000
  { lat := (jsRound (lat * 1000) : ℚ) / 1000
    long := (jsRound (long * 1000) : ℚ) / 1000 }

/-- WeatherstackService.getTimezone: fixed table with Eastern default. -/
def getTimezone (state : String) : String :=
  if state = "CA" then "America/Los_Angeles"
  else if state = "NY" then "America/New_York"
  else if state = "FL" then "America/New_York"
  else if state = "TX" then "America/Chicago"
  else if state = "IL" then "America/Chicago"
  else if state = "AZ" then "America/Phoenix"
  else "America/New_York"

/-- WeatherstackService.getUtcOffset: fixed table with Eastern default. -/
def getUtcOffset (state : String) : String :=
  if state = "CA" then "-8.0"
  else if state = "NY" then "-5.0"
  else if state = "FL" then "-5.0"
  else if state = "TX" then "-6.0"
  else if state = "IL" then "-6.0"
  else if state = "AZ" then "-7.0"
  else "-5.0"

/-- Decimal rendering of `Number.prototype.toString` for the values the
mock generator produces (exact multiples of 1/1000): integer part, then a
fractional part with trailing zeros stripped. -/
def jsNumToString (q : ℚ) : String :=
  let neg := q < 0
  let m : Int := (|q| * 1000).floor
  let ip : Int := m / 1000
  let fp : Nat := (m % 1000).toNat
  let digits : List Char :=
    [Char.ofNat (48 + fp / 100), Char.ofNat (48 + fp / 10 % 10), Char.ofNat (48 + fp % 10)]
  let digits := (digits.reverse.dropWhile (· == '0')).reverse
  (if neg then "-" else "") ++ toString ip ++
    (if digits.isEmpty then "" else "." ++ String.mk digits)

/-- Environment inputs of `getMockWeatherData`: the `Math.random()` draws
(each in [0, 1)), the clock-derived strings and `Date.now()` in
milliseconds.  The wall-clock formatting itself is treated as an input. -/
structure MockEnv where
  randTemperature : ℚ
  randWindSpeed : ℚ
  randWindDegree : ℚ
  randHumidity : ℚ
  randCloudcover : ℚ
  randFeelslike : ℚ
  randUvIndex : ℚ
  localtime : String
  nowEpochMs : Nat
  observationTime : String
deriving DecidableEq, Repr

/-- WeatherstackService.getMockWeatherData: the synthetic snapshot. -/
def getMockWeatherData (city state _zipCode : String) (env : MockEnv) : WeatherData :=
  let coordinates := generateCoordinates city state
  { request :=
      { type := "City"
        query := city ++ ", " ++ state ++ " " ++ _zipCode
        language := "en"
        unit := "m" }
    location :=
      { name := city
        country := "United States of America"
        region := state
        lat := jsNumToString coordinates.lat
        lon := jsNumToString coordinates.long
        timezone_id := getTimezone state
        localtime := env.localtime
        localtime_epoch := env.nowEpochMs / 1000
        utc_offset := getUtcOffset state }
    current :=
      { observation_time := env.observationTime
        temperature := ⌊env.randTemperature * 30⌋ + 10
        weather_code := 113
        weather_icons :=
          ["https://cdn.worldweatheronline.com/images/wsymbols01_png_64/wsymbol_0001_sunny.png"]
        weather_descriptions := ["Sunny"]
        wind_speed := ⌊env.randWindSpeed * 20⌋ + 5
        wind_degree := ⌊env.randWindDegree * 360⌋
        wind_dir := "SW"
        pressure := 1013
        precip := 0
        humidity := ⌊env.randHumidity * 50⌋ + 30
        cloudcover := ⌊env.randCloudcover * 30⌋
        feelslike := ⌊env.randFeelslike * 30⌋ + 10
        uv_index := ⌊env.randUvIndex * 10⌋
        visibility := 10
        is_day := "yes" }
  }

deriving instance DecidableEq for Except

/-- Outcome of one `getCurrentWeather` invocation: the returned snapshot or
thrown error, plus whether the live network lookup ran. -/
structure FetchOutcome where
  result : Except String WeatherData
  networkCalled : Bool
deriving DecidableEq, Repr

/-- WeatherstackService.getCurrentWeather: if the configured key is one of
the sentinels, return the synthetic snapshot without touching the network;
otherwise perform the live lookup.  The outcome of the live HTTP call
after the error-code translation of the source is supplied as the `live`
parameter. -/
def getCurrentWeather (apiKey city state zipCode : String) (env : MockEnv)
    (live : Except String WeatherData) : FetchOutcome :=
  if apiKey = "demo_key" ∨ apiKey = "mock" then
    { result := Except.ok (getMockWeatherData city state zipCode env)
      networkCalled := false }
  else
    { result := live, networkCalled := true }

/-! ### JavaScript parseFloat -/

/-- Classification of a JavaScript number produced by `parseFloat`: NaN, a
signed infinity, or a numeric value (modelled exactly over `ℚ`; binary64
rounding and overflow of huge exponents are not modelled — no settled
claim depends on them). -/
inductive JSNum where
  | nan : JSNum
  | inf : Bool → JSNum
  | val : ℚ → JSNum
deriving DecidableEq, Repr

/-- JavaScript `isNaN` on a parseFloat result. -/
def JSNum.isNaN : JSNum → Bool
  | JSNum.nan => true
  | _ => false

/-- Value of a list of ASCII digits. -/
def digitsToNat (l : List Char) : Nat :=
  l.foldl (fun a c => a * 10 + (c.toNat - 48)) 0

/-- Optional exponent part of the StrDecimalLiteral grammar: `e`/`E`, an
optional sign and digits; an exponent without digits is not consumed. -/
def parseExpPart (l : List Char) : Int :=
  let (eneg, l1) :=
    match l with
    | '-' :: r => (true, r)
    | '+' :: r => (false, r)
    | _ => (false, l)
  let ds := l1.takeWhile Char.isDigit
  if ds.isEmpty then 0
  else if eneg then -(digitsToNat ds : Int) else (digitsToNat ds : Int)

/-- JavaScript `parseFloat`: skip leading whitespace, read an optional
sign, then either `Infinity` or the longest decimal literal
(`digits [. digits] [exponent]` or `. digits [exponent]`); trailing
garbage is ignored; if no literal prefix exists the result is NaN. -/
def parseFloatJS (s : String) : JSNum :=
  let l := s.data.dropWhile jsWhitespace
  let (neg, l1) :=
    match l with
    | '-' :: rest => (true, rest)
    | '+' :: rest => (false, rest)
    | _ => (false, l)
  if l1.take 8 = "Infinity".data then JSNum.inf neg
  else
    let intDigits := l1.takeWhile Char.isDigit
    let l2 := l1.drop intDigits.length
    let fracDigits :=
      match l2 with
      | '.' :: rest => rest.takeWhile Char.isDigit
      | _ => []
    let l3 :=
      match l2 with
      | '.' :: rest => rest.drop fracDigits.length
      | _ => l2
    if intDigits.isEmpty ∧ fracDigits.isEmpty then JSNum.nan
    else
      let expVal : Int :=
        match l3 with
        | 'e' :: rest => parseExpPart rest
        | 'E' :: rest => parseExpPart rest
        | _ => 0
      let mant : ℚ :=
        (digitsToNat intDigits : ℚ) +
          (digitsToNat fracDigits : ℚ) / (10 : ℚ) ^ fracDigits.length
      let q := mant * (10 : ℚ) ^ expVal
      JSNum.val (if neg then -q else q)

/-! ### Property storage model and PropertyService -/

/-- Persisted property record (prisma model `Property`). -/
structure Property where
  id : String
  city : String
  street : String
  state : String
  zipCode : String
  lat : ℚ
  long : ℚ
  weatherData : WeatherData
  createdAt : Nat
  updatedAt : Nat
deriving DecidableEq, Repr

/-- Sort keys accepted by `getProperties` (types.ts `PropertyFilters`). -/
inductive SortBy where
  | createdAt : SortBy
  | city : SortBy
  | state : SortBy
deriving DecidableEq, Repr

/-- Sort directions accepted by `getProperties`. -/
inductive SortOrder where
  | asc : SortOrder
  | desc : SortOrder
deriving DecidableEq, Repr

/-- Filters of `getProperties`; every field is optional, matching the
TypeScript optional fields, and the destructuring defaults of the source
are applied inside `getProperties`. -/
structure PropertyFilters where
  city : Option String := none
  state : Option String := none
  zipCode : Option String := none
  sortBy : Option SortBy := none
  sortOrder : Option SortOrder := none
  limit : Option Nat := none
  offset : Option Nat := none
deriving DecidableEq, Repr

/-- Filters of `getPropertiesCount` (the same minus sort/pagination). -/
structure CountFilters where
  city : Option String := none
  state : Option String := none
  zipCode : Option String := none
deriving DecidableEq, Repr

/-- Containment of one character list in another, used for the
case-insensitive `contains` predicate of the city filter. -/
def substringOf (needle hay : List Char) : Bool :=
  match hay with
  | [] => needle.isEmpty
  | _ :: t => needle = hay.take needle.length || substringOf needle t

/-- The Prisma `where` built by `getProperties`/`getPropertiesCount`: a
JS-falsy filter value (absent or empty string) adds no constraint; city
matches case-insensitively by containment, state matches the uppercased
value exactly, zipCode matches exactly. -/
def wherePred (city state zipCode : Option String) (p : Property) : Bool :=
  (match city with
   | some c =>
     if c = "" then true
     else substringOf (jsToLowerCase c).data (jsToLowerCase p.city).data
   | none => true) &&
  (match state with
   | some st => if st = "" then true else p.state == jsToUpperCase st
   | none => true) &&
  (match zipCode with
   | some z => if z = "" then true else p.zipCode == z
   | none => true)

/-- Boolean comparator realising the Prisma `orderBy` of `getProperties`. -/
def sortLe (sb : SortBy) (so : SortOrder) (a b : Property) : Bool :=
  match sb, so with
  | SortBy.createdAt, SortOrder.asc => a.createdAt ≤ b.createdAt
  | SortBy.createdAt, SortOrder.desc => b.createdAt ≤ a.createdAt
  | SortBy.city, SortOrder.asc => a.city ≤ b.city
  | SortBy.city, SortOrder.desc => b.city ≤ a.city
  | SortBy.state, SortOrder.asc => a.state ≤ b.state
  | SortBy.state, SortOrder.desc => b.state ≤ a.state

/-- PropertyService.getProperties over a storage state `db`: apply the
destructuring defaults, filter by the `where`, sort by the `orderBy`, then
`skip: offset` and `take: Math.min(limit, 100)`.  The storage collaborator
of the model cannot itself fail, so the error-wrapping catch of the source
is not reachable here. -/
def getProperties (db : List Property) (filters : PropertyFilters) : List Property :=
  let sortBy := filters.sortBy.getD SortBy.createdAt
  let sortOrder := filters.sortOrder.getD SortOrder.desc
  let limit := filters.limit.getD 50
  let offset := filters.offset.getD 0
  let filtered := db.filter (wherePred filters.city filters.state filters.zipCode)
  let sorted := filtered.mergeSort (sortLe sortBy sortOrder)
  (sorted.drop offset).take (min limit 100)

/-- PropertyService.getPropertiesCount over a storage state `db`. -/
def getPropertiesCount (db : List Property) (filters : CountFilters) : Nat :=
  (db.filter (wherePred filters.city filters.state filters.zipCode)).length

/-- Outcome of one `deleteProperty` invocation: the returned flag or
thrown error, plus whether any storage call was made. -/
structure DeleteOutcome where
  result : Except String Bool
  storageAccessed : Bool
deriving DecidableEq, Repr

/-- PropertyService.deleteProperty over a storage state `db`: reject a
blank identifier before any storage access, look the record up first and
rethrow `Property not found` unchanged, then delete.  A failure of the
Prisma delete call itself is injected through `deleteFailure` and is
wrapped like the source wraps it. -/
def deleteProperty (db : List Property) (id : String)
    (deleteFailure : Option String) : DeleteOutcome :=
  if id = "" ∨ (jsTrim id).length = 0 then
    { result := Except.error "Property ID is required", storageAccessed := false }
  else
    match db.find? (fun p => p.id == jsTrim id) with
    | none =>
      { result := Except.error "Property not found", storageAccessed := true }
    | some _ =>
      match deleteFailure with
      | some e =>
        { result := Except.error ("Failed to delete property: " ++ e)
          storageAccessed := true }
      | none => { result := Except.ok true, storageAccessed := true }

/-- Outcome of one `createProperty` invocation: the returned record or
thrown error, plus which collaborators were invoked. -/
structure CreateOutcome where
  result : Except String Property
  weatherCalled : Bool
  createCalled : Bool
deriving DecidableEq, Repr

/-- PropertyService.createProperty: sanitize, validate (abort with the
joined message on failure), fetch weather, parse the snapshot
coordinates and reject NaN, then persist.  The outcomes of the two
collaborators are supplied as parameters: `weather` is what
`getCurrentWeather` returns or throws, `storage` is what
`prisma.property.create` returns or throws; every error thrown inside the
try block is wrapped with `Failed to create property: `. -/
def createProperty (input : CreatePropertyInput)
    (weather : Except String WeatherData)
    (storage : Except String Property) : CreateOutcome :=
  let sanitizedInput := sanitizeInput input
  let validation := validatePropertyInput sanitizedInput
  if validation.isValid = false then
    { result := Except.error
        ("Validation failed: " ++ String.intercalate ", " validation.errors)
      weatherCalled := false
      createCalled := false }
  else
    match weather with
    | Except.error e =>
      { result := Except.error ("Failed to create property: " ++ e)
        weatherCalled := true
        createCalled := false }
    | Except.ok weatherData =>
      let lat := parseFloatJS weatherData.location.lat
      let long := parseFloatJS weatherData.location.lon
      if lat.isNaN || long.isNaN then
        { result := Except.error
            ("Failed to create property: " ++
              "Invalid coordinates received from weather service")
          weatherCalled := true
          createCalled := false }
      else
        match storage with
        | Except.error e =>
          { result := Except.error ("Failed to create property: " ++ e)
            weatherCalled := true
            createCalled := true }
        | Except.ok property =>
          { result := Except.ok property
            weatherCalled := true
            createCalled := true }

/-! ### Concrete sample data for witnesses and counterexamples -/

/-- A submission that passes validation. -/
def okInput : CreatePropertyInput :=
  { city := "Phoenix", street := "123 Main St", state := "AZ", zipCode := "85001" }

/-- A fixed environment for the mock generator. -/
def sampleEnv : MockEnv :=
  { randTemperature := 0, randWindSpeed := 0, randWindDegree := 0,
    randHumidity := 0, randCloudcover := 0, randFeelslike := 0, randUvIndex := 0,
    localtime := "2025-08-28 14:30", nowEpochMs := 1705329000000,
    observationTime := "02:30 PM" }

/-- A fixed current-conditions block for sample snapshots. -/
def sampleCurrent : WeatherCurrent :=
  { observation_time := "02:30 PM", temperature := 25, weather_code := 113,
    weather_icons := [], weather_descriptions := ["Sunny"], wind_speed := 10,
    wind_degree := 180, wind_dir := "SW", pressure := 1013, precip := 0,
    humidity := 50, cloudcover := 10, feelslike := 25, uv_index := 5,
    visibility := 10, is_day := "yes" }

/-- A snapshot whose latitude string parses to positive infinity. -/
def infSnapshot : WeatherData :=
  { request := { type := "City", query := "Phoenix, AZ 85001", language := "en", unit := "m" }
    location :=
      { name := "Phoenix", country := "United States of America", region := "AZ",
        lat := "Infinity", lon := "-112.074", timezone_id := "America/Phoenix",
        localtime := "2025-08-28 14:30", localtime_epoch := 1705329000,
        utc_offset := "-7.0" }
    current := sampleCurrent }

/-- A snapshot whose coordinate strings parse to ordinary finite numbers. -/
def goodSnapshot : WeatherData :=
  { request := { type := "City", query := "Phoenix, AZ 85001", language := "en", unit := "m" }
    location :=
      { name := "Phoenix", country := "United States of America", region := "AZ",
        lat := "33.448", lon := "-112.074", timezone_id := "America/Phoenix",
        localtime := "2025-08-28 14:30", localtime_epoch := 1705329000,
        utc_offset := "-7.0" }
    current := sampleCurrent }

/-- A persisted record, used as the storage create result in witnesses. -/
def sampleProperty : Property :=
  { id := "test-1", city := "Phoenix", street := "123 Main St", state := "AZ",
    zipCode := "85001", lat := 33, long := -112,
    weatherData := goodSnapshot, createdAt := 1, updatedAt := 1 }

/-! ### Basic lemmas about the string primitives -/

theorem char_toNat_ofNat {n : Nat} (h : n < 55296) : (Char.ofNat n).toNat = n := by
  unfold Char.ofNat
  rw [dif_pos (Or.inl h)]
  simp [Char.ofNatAux, Char.toNat, UInt32.toNat]

theorem upperChar_toNat_of_lower {c : Char} (h : 97 ≤ c.toNat ∧ c.toNat ≤ 122) :
    (upperChar c).toNat = c.toNat - 32 := by
  unfold upperChar
  rw [if_pos h]
  exact char_toNat_ofNat (by omega)

theorem upperChar_idem (c : Char) : upperChar (upperChar c) = upperChar c := by
  by_cases h : 97 ≤ c.toNat ∧ c.toNat ≤ 122
  · have h2 := upperChar_toNat_of_lower h
    generalize upperChar c = d at h2 ⊢
    unfold upperChar
    rw [if_neg (by omega)]
  · unfold upperChar
    rw [if_neg h, if_neg h]

theorem wsCode_eq_false_of_alpha {n : Nat} (h1 : 65 ≤ n) (h2 : n ≤ 122) :
    wsCode n = false := by
  unfold wsCode
  simp only [Bool.or_eq_false_iff, beq_eq_false_iff_ne, ne_eq, Bool.and_eq_false_iff,
    decide_eq_false_iff_not, not_le]
  omega

theorem jsWhitespace_upperChar (c : Char) :
    jsWhitespace (upperChar c) = jsWhitespace c := by
  by_cases h : 97 ≤ c.toNat ∧ c.toNat ≤ 122
  · have h2 := upperChar_toNat_of_lower h
    unfold jsWhitespace
    rw [h2, wsCode_eq_false_of_alpha (by omega) (by omega),
      wsCode_eq_false_of_alpha (by omega) (by omega)]
  · unfold upperChar
    rw [if_neg h]

theorem dropWhile_take_of_self {p : Char → Bool} {m : List Char}
    (hm : m.dropWhile p = m) :
    ((m.reverse.dropWhile p).reverse).dropWhile p = (m.reverse.dropWhile p).reverse := by
  have hpre : (m.reverse.dropWhile p).reverse <+: m := by
    have hs : m.reverse.dropWhile p <:+ m.reverse := List.dropWhile_suffix p
    have h2 : (m.reverse.dropWhile p).reverse <+: m.reverse.reverse :=
      List.reverse_prefix.mpr (by simpa using hs)
    simpa using h2
  obtain ⟨t, ht⟩ := hpre
  cases hcase : (m.reverse.dropWhile p).reverse with
  | nil => simp
  | cons a l =>
    rw [hcase] at ht
    have ha : p a = false := by
      rw [← ht] at hm
      by_contra hpa
      simp only [Bool.not_eq_false] at hpa
      rw [List.cons_append, List.dropWhile_cons_of_pos hpa] at hm
      have hle : (List.dropWhile p (l ++ t)).length ≤ (l ++ t).length :=
        (List.dropWhile_suffix p).length_le
      have hlen := congrArg List.length hm
      rw [List.length_cons] at hlen
      omega
    simp [List.dropWhile_cons, ha]

theorem listTrim_idem (l : List Char) : listTrim (listTrim l) = listTrim l := by
  unfold listTrim
  have hm : (l.dropWhile jsWhitespace).dropWhile jsWhitespace = l.dropWhile jsWhitespace :=
    List.dropWhile_idempotent jsWhitespace l
  rw [dropWhile_take_of_self hm, List.reverse_reverse, List.dropWhile_idempotent]

theorem listTrim_map_upperChar (l : List Char) :
    listTrim (l.map upperChar) = (listTrim l).map upperChar := by
  unfold listTrim
  have hcomp : (jsWhitespace ∘ upperChar) = jsWhitespace := by
    funext c
    exact jsWhitespace_upperChar c
  rw [List.dropWhile_map, hcomp, ← List.map_reverse, List.dropWhile_map, hcomp,
    ← List.map_reverse]

theorem map_upperChar_idem (l : List Char) :
    (l.map upperChar).map upperChar = l.map upperChar := by
  rw [List.map_map]
  exact List.map_congr_left fun c _ => upperChar_idem c

theorem jsTrim_idem (s : String) : jsTrim (jsTrim s) = jsTrim s := by
  unfold jsTrim
  exact congrArg String.mk (listTrim_idem s.data)

theorem jsOrEmpty_eq (s : String) : jsOrEmpty s = s := by
  unfold jsOrEmpty
  split <;> simp_all

theorem jsToUpperCase_jsTrim (s : String) :
    jsToUpperCase (jsTrim s) = jsTrim (jsToUpperCase s) := by
  unfold jsToUpperCase jsTrim
  exact congrArg String.mk (listTrim_map_upperChar s.data).symm

theorem jsToUpperCase_idem (s : String) :
    jsToUpperCase (jsToUpperCase s) = jsToUpperCase s := by
  unfold jsToUpperCase
  exact congrArg String.mk (map_upperChar_idem s.data)

/-! ### Claim theorems -/

/-- C7: sanitizeInput is idempotent — sanitizing an already-sanitized
submission yields the same submission. -/
theorem c7_sanitizeInput_idempotent (x : CreatePropertyInput) :
    sanitizeInput (sanitizeInput x) = sanitizeInput x := by
  unfold sanitizeInput
  simp only [jsOrEmpty_eq, jsToUpperCase_jsTrim, jsTrim_idem, jsToUpperCase_idem]

/-- C9: the result of validatePropertyInput is internally consistent — the
isValid flag is true exactly when the errors list is empty, and the errors
list never holds more than four entries. -/
theorem c9_validation_result_consistent (input : CreatePropertyInput) :
    ((validatePropertyInput input).isValid = true ↔
      (validatePropertyInput input).errors = []) ∧
    (validatePropertyInput input).errors.length ≤ 4 := by
  unfold validatePropertyInput
  split_ifs <;> simp

theorem wherePred_city_empty (st z : Option String) :
    wherePred (some "") st z = wherePred none st z := by
  funext p
  simp [wherePred]

theorem wherePred_state_empty (c z : Option String) :
    wherePred c (some "") z = wherePred c none z := by
  funext p
  simp [wherePred]

theorem wherePred_zip_empty (c st : Option String) :
    wherePred c st (some "") = wherePred c st none := by
  funext p
  simp [wherePred]

/-- C10: in getProperties and getPropertiesCount, a city, state or zipCode
filter supplied as the empty string adds no constraint — the result equals
the result of the same call with that filter omitted. -/
theorem c10_empty_filter_is_no_filter (db : List Property)
    (f : PropertyFilters) (g : CountFilters) :
    getProperties db { f with city := some "" } = getProperties db { f with city := none } ∧
    getProperties db { f with state := some "" } = getProperties db { f with state := none } ∧
    getProperties db { f with zipCode := some "" } = getProperties db { f with zipCode := none } ∧
    getPropertiesCount db { g with city := some "" } =
      getPropertiesCount db { g with city := none } ∧
    getPropertiesCount db { g with state := some "" } =
      getPropertiesCount db { g with state := none } ∧
    getPropertiesCount db { g with zipCode := some "" } =
      getPropertiesCount db { g with zipCode := none } := by
  refine ⟨?_, ?_, ?_, ?_, ?_, ?_⟩ <;>
    simp [getProperties, getPropertiesCount, wherePred_city_empty,
      wherePred_state_empty, wherePred_zip_empty]

/-- C4 counterexample: validatePropertyInput itself is case-sensitive — the
submission with state "az" (and otherwise valid fields) is reported
invalid with the state error, contradicting the claim that
validatePropertyInput reports no state error for any letter case of a
valid abbreviation. -/
theorem c4_counterexample :
    (validatePropertyInput
      { city := "Phoenix", street := "123 Main St", state := "az", zipCode := "85001" }).isValid
        = false ∧
    "Valid US state abbreviation is required (e.g., CA, NY, TX)" ∈
      (validatePropertyInput
        { city := "Phoenix", street := "123 Main St", state := "az", zipCode := "85001" }).errors := by
  decide

/-- C4 (amended): the state rule is case-insensitive for the validation of
the sanitized submission — whenever the trimmed uppercased state is a
valid abbreviation, validating the sanitized submission reports no state
error. -/
theorem c4_state_rule_case_insensitive_after_sanitize (input : CreatePropertyInput)
    (h : jsTrim (jsToUpperCase input.state) ∈ US_STATES) :
    "Valid US state abbreviation is required (e.g., CA, NY, TX)" ∉
      (validatePropertyInput (sanitizeInput input)).errors := by
  have hne : jsTrim (jsToUpperCase input.state) ≠ "" := by
    intro he
    rw [he] at h
    revert h
    decide
  have hstate : ¬(jsTrim (jsToUpperCase input.state) = "" ∨
      jsTrim (jsToUpperCase input.state) ∉ US_STATES) := by
    push_neg
    exact ⟨hne, h⟩
  unfold validatePropertyInput sanitizeInput
  simp only [jsOrEmpty_eq]
  rw [if_neg hstate]
  split_ifs <;> decide

/-- C4 witness: the lowercase state "az" passes the amended rule. -/
theorem c4_state_rule_witness :
    jsTrim (jsToUpperCase "az") ∈ US_STATES ∧
    "Valid US state abbreviation is required (e.g., CA, NY, TX)" ∉
      (validatePropertyInput (sanitizeInput
        { city := "Phoenix", street := "123 Main St", state := "az", zipCode := "85001" })).errors :=
  ⟨by decide,
    c4_state_rule_case_insensitive_after_sanitize
      { city := "Phoenix", street := "123 Main St", state := "az", zipCode := "85001" }
      (by decide)⟩

/-- C3 counterexample: the sentinel credentials are "demo_key" and "mock",
not "demo" — with credential "demo" getCurrentWeather takes the live
branch (a network call) and returns the live outcome, contradicting the
claim that "demo" always yields the synthetic snapshot with no network
call. -/
theorem c3_counterexample :
    (getCurrentWeather "demo" "Phoenix" "AZ" "85001" sampleEnv
      (Except.error "network down")).networkCalled = true ∧
    (getCurrentWeather "demo" "Phoenix" "AZ" "85001" sampleEnv
      (Except.error "network down")).result = Except.error "network down" := by
  constructor <;> rfl

/-- C3 (amended): whenever the configured credential equals "demo_key" or
"mock", getCurrentWeather returns the synthetic snapshot (whose location
name and region echo the requested city and state) and performs no network
call; for every other credential it performs the live lookup. -/
theorem c3_mode_selection (apiKey city state zipCode : String) (env : MockEnv)
    (live : Except String WeatherData) :
    ((apiKey = "demo_key" ∨ apiKey = "mock") →
      getCurrentWeather apiKey city state zipCode env live =
        { result := Except.ok (getMockWeatherData city state zipCode env)
          networkCalled := false } ∧
      (getMockWeatherData city state zipCode env).location.name = city ∧
      (getMockWeatherData city state zipCode env).location.region = state) ∧
    (¬(apiKey = "demo_key" ∨ apiKey = "mock") →
      getCurrentWeather apiKey city state zipCode env live =
        { result := live, networkCalled := true }) := by
  constructor
  · intro hmode
    refine ⟨?_, rfl, rfl⟩
    unfold getCurrentWeather
    rw [if_pos hmode]
  · intro hmode
    unfold getCurrentWeather
    rw [if_neg hmode]

/-- C3 witness: the "mock" credential takes the synthetic branch. -/
theorem c3_mode_selection_witness :
    getCurrentWeather "mock" "Phoenix" "AZ" "85001" sampleEnv (Except.error "x") =
      { result := Except.ok (getMockWeatherData "Phoenix" "AZ" "85001" sampleEnv)
        networkCalled := false } ∧
    (getMockWeatherData "Phoenix" "AZ" "85001" sampleEnv).location.name = "Phoenix" ∧
    (getMockWeatherData "Phoenix" "AZ" "85001" sampleEnv).location.region = "AZ" :=
  (c3_mode_selection "mock" "Phoenix" "AZ" "85001" sampleEnv
    (Except.error "x")).1 (Or.inr rfl)

theorem notFound_ne_wrapped (e : String) :
    "Property not found" ≠ "Failed to delete property: " ++ e := by
  intro h
  have hlen := congrArg String.length h
  rw [String.length_append] at hlen
  have h1 : "Property not found".length = 18 := rfl
  have h2 : "Failed to delete property: ".length = 27 := rfl
  omega

/-- C6: deleteProperty rejects a blank identifier with the
required-identifier error before any storage access; a non-blank
identifier matching no record fails with exactly "Property not found",
which differs from every wrapped generic storage error; and true is
returned only after a record was found and the delete call succeeded. -/
theorem c6_deleteProperty_contract (db : List Property) (id : String)
    (dfail : Option String) :
    ((id = "" ∨ (jsTrim id).length = 0) →
      deleteProperty db id dfail =
        { result := Except.error "Property ID is required", storageAccessed := false }) ∧
    (¬(id = "" ∨ (jsTrim id).length = 0) →
      db.find? (fun p => p.id == jsTrim id) = none →
      (deleteProperty db id dfail).result = Except.error "Property not found" ∧
      ∀ e, "Property not found" ≠ "Failed to delete property: " ++ e) ∧
    (∀ b, (deleteProperty db id dfail).result = Except.ok b →
      b = true ∧ (∃ p, db.find? (fun q => q.id == jsTrim id) = some p) ∧
      dfail = none) := by
  refine ⟨?_, ?_, ?_⟩
  · intro hblank
    unfold deleteProperty
    rw [if_pos hblank]
  · intro hblank hnone
    unfold deleteProperty
    rw [if_neg hblank, hnone]
    exact ⟨rfl, notFound_ne_wrapped⟩
  · intro b hok
    unfold deleteProperty at hok
    by_cases hblank : id = "" ∨ (jsTrim id).length = 0
    · rw [if_pos hblank] at hok
      exact absurd hok (by simp)
    · rw [if_neg hblank] at hok
      cases hfind : db.find? (fun p => p.id == jsTrim id) with
      | none =>
        rw [hfind] at hok
        exact absurd hok (by simp)
      | some p =>
        rw [hfind] at hok
        cases hdf : dfail with
        | some e =>
          rw [hdf] at hok
          exact absurd hok (by simp)
        | none =>
          rw [hdf] at hok
          simp only [Except.ok.injEq] at hok
          exact ⟨hok.symm, ⟨p, rfl⟩, rfl⟩

/-- C6 witness: a non-blank identifier absent from a one-record store
fails with the distinguishable not-found error. -/
theorem c6_deleteProperty_witness :
    (deleteProperty [sampleProperty] "missing" none).result =
      Except.error "Property not found" ∧
    ∀ e, "Property not found" ≠ "Failed to delete property: " ++ e :=
  (c6_deleteProperty_contract [sampleProperty] "missing" none).2.1
    (by decide) (by decide)

/-- C2: createProperty never invokes the weather adapter when the
sanitized submission fails validation (it aborts with the single combined
message and makes no network or storage call), and never invokes the
storage create unless the weather lookup succeeded and the snapshot passed
the NaN coordinate check. -/
theorem c2_workflow_sequencing (input : CreatePropertyInput)
    (weather : Except String WeatherData) (storage : Except String Property) :
    ((validatePropertyInput (sanitizeInput input)).isValid = false →
      createProperty input weather storage =
        { result := Except.error ("Validation failed: " ++ String.intercalate ", "
            (validatePropertyInput (sanitizeInput input)).errors)
          weatherCalled := false
          createCalled := false }) ∧
    ((createProperty input weather storage).createCalled = true →
      (validatePropertyInput (sanitizeInput input)).isValid = true ∧
      ∃ wd, weather = Except.ok wd ∧
        (parseFloatJS wd.location.lat).isNaN = false ∧
        (parseFloatJS wd.location.lon).isNaN = false) := by
  constructor
  · intro hv
    unfold createProperty
    rw [if_pos hv]
  · intro hc
    by_cases hv : (validatePropertyInput (sanitizeInput input)).isValid = false
    · unfold createProperty at hc
      rw [if_pos hv] at hc
      exact absurd hc (by simp)
    · refine ⟨by revert hv; cases (validatePropertyInput (sanitizeInput input)).isValid <;> simp, ?_⟩
      unfold createProperty at hc
      rw [if_neg hv] at hc
      cases hw : weather with
      | error e =>
        rw [hw] at hc
        exact absurd hc (by simp)
      | ok wd =>
        rw [hw] at hc
        dsimp only at hc
        by_cases hn : ((parseFloatJS wd.location.lat).isNaN ||
            (parseFloatJS wd.location.lon).isNaN) = true
        · rw [if_pos hn] at hc
          exact absurd hc (by simp)
        · refine ⟨wd, rfl, ?_, ?_⟩ <;>
            · revert hn
              cases (parseFloatJS wd.location.lat).isNaN <;>
                cases (parseFloatJS wd.location.lon).isNaN <;> simp

/-- C2 witness: an invalid submission (empty city) aborts with the joined
validation message; neither collaborator is invoked. -/
theorem c2_workflow_sequencing_witness :
    createProperty { city := "", street := "123 Main St", state := "AZ", zipCode := "85001" }
        (Except.error "net") (Except.error "db") =
      { result := Except.error ("Validation failed: " ++ String.intercalate ", "
          (validatePropertyInput (sanitizeInput
            { city := "", street := "123 Main St", state := "AZ", zipCode := "85001" })).errors)
        weatherCalled := false
        createCalled := false } :=
  (c2_workflow_sequencing
    { city := "", street := "123 Main St", state := "AZ", zipCode := "85001" }
    (Except.error "net") (Except.error "db")).1 (by decide)

/-- C1 counterexample: the coordinate guard only rejects NaN, not
non-finite values — on a snapshot whose latitude string is "Infinity"
(which parses to positive infinity, not a finite number) createProperty
does not abort: the storage create is invoked and the record is
persisted, contradicting the claim that persistence happens only for
finite parsed coordinates. -/
theorem c1_counterexample :
    parseFloatJS infSnapshot.location.lat = JSNum.inf false ∧
    (createProperty okInput (Except.ok infSnapshot)
      (Except.ok sampleProperty)).createCalled = true ∧
    (createProperty okInput (Except.ok infSnapshot)
      (Except.ok sampleProperty)).result = Except.ok sampleProperty := by
  refine ⟨by decide, by decide, by decide⟩

/-- C1 (amended): with validation passed and a snapshot in hand, if either
coordinate string parses to NaN then createProperty aborts with the
wrapped coordinate error and the storage create is never invoked; the
create is invoked exactly when neither coordinate parses to NaN (the
parsed values may be non-finite). -/
theorem c1_nan_coordinate_guard (input : CreatePropertyInput) (wd : WeatherData)
    (storage : Except String Property)
    (hv : (validatePropertyInput (sanitizeInput input)).isValid = true) :
    (((parseFloatJS wd.location.lat).isNaN ||
        (parseFloatJS wd.location.lon).isNaN) = true →
      createProperty input (Except.ok wd) storage =
        { result := Except.error
            "Failed to create property: Invalid coordinates received from weather service"
          weatherCalled := true
          createCalled := false }) ∧
    ((createProperty input (Except.ok wd) storage).createCalled = true ↔
      ((parseFloatJS wd.location.lat).isNaN ||
        (parseFloatJS wd.location.lon).isNaN) = false) := by
  have hv' : ¬ (validatePropertyInput (sanitizeInput input)).isValid = false := by
    rw [hv]
    simp
  constructor
  · intro hn
    unfold createProperty
    rw [if_neg hv']
    dsimp only
    rw [if_pos hn]
    decide
  · unfold createProperty
    rw [if_neg hv']
    dsimp only
    by_cases hn : ((parseFloatJS wd.location.lat).isNaN ||
        (parseFloatJS wd.location.lon).isNaN) = true
    · rw [if_pos hn]
      simp [hn]
    · rw [if_neg hn]
      cases storage <;> simp_all

/-- C1 witness: on an ordinary finite snapshot the guard lets the create
proceed. -/
theorem c1_nan_coordinate_guard_witness :
    (validatePropertyInput (sanitizeInput okInput)).isValid = true ∧
    ((createProperty okInput (Except.ok goodSnapshot)
        (Except.ok sampleProperty)).createCalled = true ↔
      ((parseFloatJS goodSnapshot.location.lat).isNaN ||
        (parseFloatJS goodSnapshot.location.lon).isNaN) = false) :=
  ⟨by decide,
    (c1_nan_coordinate_guard okInput goodSnapshot (Except.ok sampleProperty)
      (by decide)).2⟩

theorem sortLe_createdAt_desc_trans (a b c : Property)
    (hab : sortLe SortBy.createdAt SortOrder.desc a b = true)
    (hbc : sortLe SortBy.createdAt SortOrder.desc b c = true) :
    sortLe SortBy.createdAt SortOrder.desc a c = true := by
  simp only [sortLe, decide_eq_true_eq] at *
  omega

theorem sortLe_createdAt_desc_total (a b : Property) :
    (sortLe SortBy.createdAt SortOrder.desc a b ||
      sortLe SortBy.createdAt SortOrder.desc b a) = true := by
  simp only [sortLe, Bool.or_eq_true, decide_eq_true_eq]
  omega

theorem getProperties_default_eq (db : List Property) :
    getProperties db {} =
      (db.mergeSort (sortLe SortBy.createdAt SortOrder.desc)).take 50 := by
  unfold getProperties
  simp only [Option.getD_none]
  rw [show wherePred none none none = fun _ => true from rfl, List.filter_true,
    List.drop_zero]
  norm_num

/-- C5: getProperties with limit 200 returns at most 100 records however
many match, and the default call (no filters, no pagination) returns at
most 50 records, sorted by creation time descending, starting at offset
0 — it is exactly the 50-record initial segment of the descending-sorted
store. -/
theorem c5_pagination_clamps (db : List Property) :
    (getProperties db { limit := some 200 }).length ≤ 100 ∧
    (getProperties db {}).length ≤ 50 ∧
    List.Sorted (fun a b : Property => b.createdAt ≤ a.createdAt)
      (getProperties db {}) ∧
    getProperties db {} =
      (db.mergeSort (sortLe SortBy.createdAt SortOrder.desc)).take 50 := by
  refine ⟨?_, ?_, ?_, getProperties_default_eq db⟩
  · unfold getProperties
    simp only [Option.getD_none, Option.getD_some]
    exact le_trans (List.length_take_le _ _) (by norm_num)
  · rw [getProperties_default_eq db]
    exact List.length_take_le _ _
  · rw [getProperties_default_eq db]
    have hsorted := List.sorted_mergeSort sortLe_createdAt_desc_trans
      sortLe_createdAt_desc_total db
    have hpair : List.Pairwise (fun a b : Property => b.createdAt ≤ a.createdAt)
        (db.mergeSort (sortLe SortBy.createdAt SortOrder.desc)) := by
      refine hsorted.imp ?_
      intro a b h
      simpa [sortLe] using h
    exact List.Pairwise.sublist (List.take_sublist 50 _) hpair

theorem natAbs_tmod (a b : Int) :
    (a.tmod b).natAbs = a.natAbs % b.natAbs := by
  cases a <;> cases b <;>
      simp only [Int.tmod, Int.natAbs_neg, Int.natAbs_ofNat, Int.natAbs_negSucc] <;>
    rfl

theorem jsRound_intCast (n : ℤ) : jsRound ((n : ℚ)) = n := by
  unfold jsRound
  rw [add_comm, Int.floor_add_int]
  norm_num

theorem generateCoordinates_lat_eq (city state : String) :
    (generateCoordinates city state).lat =
      ((24000 + (((cityHash city).tmod 25000).natAbs : ℤ) : ℤ) : ℚ) / 1000 := by
  unfold generateCoordinates
  dsimp only
  generalize ((cityHash city).tmod 25000).natAbs = k
  congr 1
  have harith : (24 + (k : ℚ) / 1000) * 1000 = ((24000 + (k : ℤ) : ℤ) : ℚ) := by
    push_cast
    ring
  rw [harith, jsRound_intCast]

theorem generateCoordinates_long_eq (city state : String) :
    (generateCoordinates city state).long =
      ((-125000 + (((cityHash city).tmod 59000).natAbs : ℤ) : ℤ) : ℚ) / 1000 := by
  unfold generateCoordinates
  dsimp only
  generalize ((cityHash city).tmod 59000).natAbs = k
  congr 1
  have harith : (-125 + (k : ℚ) / 1000) * 1000 = ((-125000 + (k : ℤ) : ℤ) : ℚ) := by
    push_cast
    ring
  rw [harith, jsRound_intCast]

/-- C8: the synthetic coordinates satisfy 24 ≤ lat < 49 and
-125 ≤ long < -66, both are exact multiples of 1/1000 (three decimal
places), and they are a deterministic function of the lowercased city
name: any two city strings with the same lowercasing map to the same
coordinates whatever the state arguments are. -/
theorem c8_generateCoordinates_bounds (city state : String) :
    24 ≤ (generateCoordinates city state).lat ∧
    (generateCoordinates city state).lat < 49 ∧
    -125 ≤ (generateCoordinates city state).long ∧
    (generateCoordinates city state).long < -66 ∧
    ((generateCoordinates city state).lat * 1000).den = 1 ∧
    ((generateCoordinates city state).long * 1000).den = 1 ∧
    ∀ city2 state2, jsToLowerCase city = jsToLowerCase city2 →
      generateCoordinates city state = generateCoordinates city2 state2 := by
  have hlat := generateCoordinates_lat_eq city state
  have hlong := generateCoordinates_long_eq city state
  rw [hlat, hlong]
  generalize hk : ((cityHash city).tmod 25000).natAbs = k at *
  generalize hm : ((cityHash city).tmod 59000).natAbs = m at *
  have hkb : k < 25000 := by
    rw [← hk, natAbs_tmod]
    rw [show (25000 : ℤ).natAbs = 25000 from rfl]
    exact Nat.mod_lt _ (by norm_num)
  have hmb : m < 59000 := by
    rw [← hm, natAbs_tmod]
    rw [show (59000 : ℤ).natAbs = 59000 from rfl]
    exact Nat.mod_lt _ (by norm_num)
  have hkq : (k : ℚ) < 25000 := by exact_mod_cast hkb
  have hmq : (m : ℚ) < 59000 := by exact_mod_cast hmb
  have hk0 : (0 : ℚ) ≤ (k : ℚ) := Nat.cast_nonneg _
  have hm0 : (0 : ℚ) ≤ (m : ℚ) := Nat.cast_nonneg _
  refine ⟨?_, ?_, ?_, ?_, ?_, ?_, ?_⟩
  · rw [le_div_iff₀ (by norm_num : (0:ℚ) < 1000)]
    push_cast
    linarith
  · rw [div_lt_iff₀ (by norm_num : (0:ℚ) < 1000)]
    push_cast
    linarith
  · rw [le_div_iff₀ (by norm_num : (0:ℚ) < 1000)]
    push_cast
    linarith
  · rw [div_lt_iff₀ (by norm_num : (0:ℚ) < 1000)]
    push_cast
    linarith
  · rw [div_mul_cancel₀ _ (by norm_num : (1000:ℚ) ≠ 0)]
    exact Rat.den_intCast _
  · rw [div_mul_cancel₀ _ (by norm_num : (1000:ℚ) ≠ 0)]
    exact Rat.den_intCast _
  · intro city2 state2 hlower
    unfold generateCoordinates cityHash
    rw [hlower]

/-- C8 witness: two casings of the same city name yield identical
coordinates. -/
theorem c8_generateCoordinates_witness :
    jsToLowerCase "Phoenix" = jsToLowerCase "PHOENIX" ∧
    generateCoordinates "Phoenix" "AZ" = generateCoordinates "PHOENIX" "ZZ" :=
  ⟨by decide,
    (c8_generateCoordinates_bounds "Phoenix" "AZ").2.2.2.2.2.2 "PHOENIX" "ZZ"
      (by decide)⟩
